import Mathlib

/-!
Shallow embedding of `src/app/chatbot_service.py` (class `ChatbotService`):
a debate-training chatbot service that keeps per-session conversation
history, evaluates user arguments in "score" mode through an external
generative model, and aggregates the numeric criteria into a final report.

The external model call (`self.model.generate_content`) and the JSON
parsing of its output (`json.loads`) are external collaborators; they are
modelled as parameters of the environment (`GenEnv`): `gen` maps a prompt
to either a response text (`Except.ok`) or a raised exception carrying a
message (`Except.error`), and `parse` maps a response text to the
structured record when it parses as a JSON object of key/value pairs
(`some`) and to `none` otherwise.  Python dictionaries are modelled as
functions `String → Option _`; mutation is explicit state passing.
Exceptions are modelled with `Except String`; since Python mutations
persist when an exception propagates, `generate_response` returns the
post state alongside the `Except` result.
-/

/-- A conversation turn: the Python dict `{"role": ..., "content": ...}`. -/
structure Turn where
  role : String
  content : String
deriving DecidableEq, Repr

/-- A JSON scalar value as it can appear under a key of a parsed
evaluation object: a number or a string.  The numeric scores the prompt
requests are integers (0-20), so numbers are modelled as integers. -/
inductive JsonVal where
  | num : ℤ → JsonVal
  | str : String → JsonVal
deriving DecidableEq, Repr

/-- An evaluation record: a parsed JSON object, i.e. a finite list of
key/value pairs (the Python dict returned by `json.loads`, or the
fallback `{"raw": text}`). -/
abbrev EvalRecord := List (String × JsonVal)

/-- The value returned by `generate_response`: the Python dict
`{"text": ..., "session_id": ...}`. -/
structure GenResult where
  text : String
  session_id : String
deriving DecidableEq, Repr

deriving instance DecidableEq for Except

/-- The mutable state of a `ChatbotService` instance: `self.sessions`
and `self.evaluations`, two dicts keyed by session identifier. -/
structure ServiceState where
  sessions : String → Option (List Turn)
  evaluations : String → Option (List EvalRecord)

/-- The state of a freshly constructed service: both dicts empty. -/
def emptyState : ServiceState :=
  { sessions := fun _ => none, evaluations := fun _ => none }

/-- The external environment of one `generate_response` invocation:
`freshId` is the value `str(uuid.uuid4())` would produce, `gen` is the
external model call and `parse` the JSON-object parse of its output. -/
structure GenEnv where
  freshId : String
  gen : String → Except String String
  parse : String → Option EvalRecord

/-- Lowercasing of one character as Python's `str.lower()` does it, on
the ASCII and Latin-1 ranges: `A`-`Z` via `Char.toLower` and the Latin-1
uppercase letters `À`-`Þ` (U+00C0-U+00DE, excluding the multiplication
sign U+00D7) by adding 0x20, so `É` becomes `é`.  On higher code points
this is the identity; Python's full Unicode table differs there, but
agrees with this map on whether any string lowercases to one of the
terminal phrases, whose characters all lie below U+0100. -/
def pyLowerChar (c : Char) : Char :=
  if 0xC0 ≤ c.toNat ∧ c.toNat ≤ 0xDE ∧ c.toNat ≠ 0xD7 then Char.ofNat (c.toNat + 0x20)
  else c.toLower

/-- Python's `str.lower()`: lowercase each character. -/
def pyLower (s : String) : String := ⟨s.data.map pyLowerChar⟩

/-- The terminal phrases recognised in score mode
(`["fin du débat", "fin", "score"]`, line 93/98). -/
def terminalPhrases : List String := ["fin du débat", "fin", "score"]

/-- The criteria list of `_generate_final_score` (lines 184-190). -/
def criteres : List String :=
  ["logique", "preuves", "force_argumentative", "structure", "clarte_style"]

/-- `self.system_prompt` (lines 31-64). -/
def system_prompt : String :=
  "\nTu es DebateMaster, un expert en argumentation et en débats.\n\n--------------------------------------------------------\nMODE 1 = \"train\"\nObjectif : entraîner l’utilisateur à débattre.\n- Réponds comme un expert du débat\n- Propose des arguments logiques\n- Contredis ou soutiens selon la discussion\n- Donne des conseils si l’utilisateur fait une erreur\n- Ne donne JAMAIS de score dans ce mode\n\n--------------------------------------------------------\nMODE 2 = \"score\"\nObjectif : évaluer la qualité argumentative de l’utilisateur.\nÀ chaque message utilisateur :\n- Analyse l’idée principale\n- Analyse la cohérence logique\n- Analyse l\x27utilisation de preuves\n- Analyse la force argumentative\n- Analyse la clarté du style\n- Génère une mini-évaluation (score 0–20 pour chaque critère)\nStocke tout cela mais NE RÉVÈLE PAS encore le score.\n\nQuand l’utilisateur dit “fin du débat” :\n- Fournis un rapport complet :\n  * Score global /100\n  * Forces\n  * Faiblesses\n  * Conseils d’amélioration\n  * Exemple de meilleure réponse possible\n--------------------------------------------------------\nTu adaptes ton comportement selon le mode.\n        "

/-- The analysis prompt of `_evaluate_argument` (lines 150-162). -/
def evalPrompt (message : String) : String :=
  "\nAnalyse ce message d\x27utilisateur pour un débat :\n\nMessage : \"" ++ message ++
  "\"\n\nDonne une analyse sous forme de JSON avec :\n- idee_principale (texte)\n- logique (score 0-20)\n- preuves (score 0-20)\n- force_argumentative (score 0-20)\n- structure (score 0-20)\n- clarte_style (score 0-20)\n"

/-- Round-half-even to an integer, as Python's `round` does on exact
values. -/
def roundHalfEven (q : ℚ) : ℤ :=
  let f := ⌊q⌋
  let r := q - f
  if r < 1/2 then f
  else if 1/2 < r then f + 1
  else if f % 2 = 0 then f else f + 1

/-- `round(x, 2)` on exact rationals: round-half-even at two decimal
places. -/
def round2 (q : ℚ) : ℚ := (roundHalfEven (q * 100) : ℚ) / 100

/-- The part of the final report before the score (line 204). -/
def reportPrefix : String := "\n🎯 **Score final du débat : "

/-- The part of the final report after the score (lines 204-218). -/
def reportSuffix : String :=
  "/100**\n\n✅ **Points forts**\n- Analyse basée sur les arguments fournis\n\n❌ **Points à améliorer**\n- Cohérence\n- Structure\n- Preuves\n\n📘 **Conseils**\n- Utilise des exemples concrets\n- Structure tes arguments (idée → justification → preuve)\n- Améliore la clarté et la logique interne\n"

/-- Rendering of the rounded score inside the report f-string: Python's
`round(x, 2)` returns a float whose `repr` is the shortest decimal form,
i.e. for a value `k/100` the integer part, a dot, and the fractional
digits with a trailing zero stripped but at least one digit kept
(`50.0`, `2.6`, `2.67`, `2.05`). -/
def pyFloatRepr (q : ℚ) : String :=
  let k : ℤ := q.num * ((100 : ℤ) / (q.den : ℤ))
  let a : ℕ := k.natAbs
  let ip : ℕ := a / 100
  let fr : ℕ := a % 100
  let frs : String :=
    if fr = 0 then "0"
    else if fr % 10 = 0 then toString (fr / 10)
    else if fr < 10 then "0" ++ toString fr
    else toString fr
  (if k < 0 then "-" else "") ++ toString ip ++ "." ++ frs

/-- The fixed report template of `_generate_final_score` (lines 203-218),
as a function of the final score. -/
def reportTemplate (score : ℚ) : String :=
  reportPrefix ++ pyFloatRepr score ++ reportSuffix

/-- The message returned when the session has no evaluation record
(line 180). -/
def noArgumentMsg : String := "Aucun argument à évaluer."

/-- The message returned when no (record, criterion) pair contributed
(line 199). -/
def noScoreMsg : String := "Impossible de calculer le score."

/-- Rendering of one turn inside `_build_context` (lines 139-140):
`"User: <content>\n"` or `"Assistant: <content>\n"` according to the
stored role. -/
def renderTurn (t : Turn) : String :=
  (if t.role = "user" then "User" else "Assistant") ++ ": " ++ t.content ++ "\n"

/-- The last `n` elements of a list: Python's `l[-n:]`. -/
def takeLast (n : ℕ) (l : List α) : List α := l.drop (l.length - n)

/-- `_build_context` (lines 131-142): render the last 10 turns of the
session, concatenated in order (`self.sessions.get(session_id, [])[-10:]`). -/
def build_context (st : ServiceState) (session_id : String) : String :=
  let history := takeLast 10 ((st.sessions session_id).getD [])
  history.foldl (fun context msg => context ++ renderTurn msg) ""

/-- One `total_score += ev[critere]; count += 1` step of
`_generate_final_score` (lines 192-196), for one criterion of one record.
A present value that is not a number makes the Python addition raise a
`TypeError`; this is the `.error` case. -/
def addCriterion (acc : Except String (ℤ × ℕ)) (ev : EvalRecord) (critere : String) :
    Except String (ℤ × ℕ) :=
  match acc with
  | .error e => .error e
  | .ok (total_score, count) =>
    match ev.lookup critere with
    | none => .ok (total_score, count)
    | some (JsonVal.num q) => .ok (total_score + q, count + 1)
    | some (JsonVal.str _) => .error "TypeError"

/-- The double loop of `_generate_final_score` (lines 192-196): fold over
all records and all criteria, accumulating `(total_score, count)`. -/
def aggregate (evaluations : List EvalRecord) : Except String (ℤ × ℕ) :=
  evaluations.foldl
    (fun acc ev => criteres.foldl (fun a critere => addCriterion a ev critere) acc)
    (.ok (0, 0))

/-- `_generate_final_score` (lines 174-218) on the session's record list:
empty list yields the no-argument message; zero contributions yield the
no-score message; otherwise the report with
`round((total_score / (count * 20)) * 100, 2)`. -/
def generate_final_score_evs (evaluations : List EvalRecord) : Except String String :=
  if evaluations.isEmpty then .ok noArgumentMsg
  else
    match aggregate evaluations with
    | .error e => .error e
    | .ok (total_score, count) =>
      if count = 0 then .ok noScoreMsg
      else .ok (reportTemplate (round2 (((total_score : ℚ) / ((count : ℚ) * 20)) * 100)))

/-- `_generate_final_score` reading the store:
`self.evaluations.get(session_id, [])`. -/
def generate_final_score (st : ServiceState) (session_id : String) : Except String String :=
  generate_final_score_evs ((st.evaluations session_id).getD [])

/-- `_evaluate_argument` (lines 146-170): call the external model on the
analysis prompt; a raised exception propagates (no try around the call);
on success, parse the text as a JSON object, falling back to
`{"raw": text}` when parsing fails. -/
def evaluate_argument (env : GenEnv) (message : String) : Except String EvalRecord :=
  match env.gen (evalPrompt message) with
  | .error e => .error e
  | .ok text =>
    match env.parse text with
    | some record => .ok record
    | none => .ok [("raw", JsonVal.str text)]

/-- Resolution of the session identifier (lines 79-80): a missing or
falsy (empty) identifier is replaced by a fresh UUID. -/
def resolveSid (env : GenEnv) (session_id : Option String) : String :=
  match session_id with
  | none => env.freshId
  | some s => if s = "" then env.freshId else s

/-- Session creation (lines 82-84): if the identifier is unseen in
`self.sessions`, initialise both the turn list and the evaluation list to
empty. -/
def ensureSession (st : ServiceState) (sid : String) : ServiceState :=
  match st.sessions sid with
  | some _ => st
  | none =>
    { sessions := fun k => if k = sid then some [] else st.sessions k,
      evaluations := fun k => if k = sid then some [] else st.evaluations k }

/-- `self.sessions[sid].append(turn)`. -/
def appendTurn (st : ServiceState) (sid : String) (t : Turn) : ServiceState :=
  { st with
    sessions := fun k => if k = sid then some (((st.sessions sid).getD []) ++ [t])
                         else st.sessions k }

/-- `self.evaluations[sid].append(record)`. -/
def appendEval (st : ServiceState) (sid : String) (r : EvalRecord) : ServiceState :=
  { st with
    evaluations := fun k => if k = sid then some (((st.evaluations sid).getD []) ++ [r])
                            else st.evaluations k }

/-- The full prompt assembled in `generate_response` (lines 109-114). -/
def fullPrompt (mode context message : String) : String :=
  system_prompt ++ "\n\n" ++ "MODE ACTUEL : " ++ mode ++ "\n\n" ++ context ++ "\n" ++
  "Utilisateur : " ++ message

/-- `generate_response` (lines 68-127).  Returns the `Except` outcome
together with the post state (Python mutations persist when an exception
propagates).  Control flow: resolve/create the session, append the user
turn; in score mode a non-terminal message is evaluated and the record
appended (an exception from the evaluation call propagates unwrapped); in
score mode a terminal message returns the final report, appended as an
assistant turn, skipping generation; otherwise the external model is
called on the full prompt, a failure being re-raised wrapped as
`"Erreur génération IA : ..."`. -/
def generate_response (env : GenEnv) (message : String) (mode : String)
    (session_id : Option String) (st : ServiceState) :
    Except String GenResult × ServiceState :=
  let sid := resolveSid env session_id
  let st := ensureSession st sid
  let st := appendTurn st sid { role := "user", content := message }
  let isTerminal := terminalPhrases.contains (pyLower message)
  let evalStep : Except String ServiceState :=
    if mode = "score" ∧ ¬ isTerminal = true then
      match evaluate_argument env message with
      | .error e => .error e
      | .ok analysis => .ok (appendEval st sid analysis)
    else .ok st
  match evalStep with
  | .error e => (.error e, st)
  | .ok st =>
    if mode = "score" ∧ isTerminal = true then
      match generate_final_score st sid with
      | .error e => (.error e, st)
      | .ok final_report =>
        let st := appendTurn st sid { role := "assistant", content := final_report }
        (.ok { text := final_report, session_id := sid }, st)
    else
      let context := build_context st sid
      let full_prompt := fullPrompt mode context message
      match env.gen full_prompt with
      | .error e => (.error ("Erreur génération IA : " ++ e), st)
      | .ok response_text =>
        let st := appendTurn st sid { role := "assistant", content := response_text }
        (.ok { text := response_text, session_id := sid }, st)

/-- `clear_session` (lines 222-227): `pop` both entries, no error when
absent. -/
def clear_session (st : ServiceState) (session_id : String) : ServiceState :=
  { sessions := fun k => if k = session_id then none else st.sessions k,
    evaluations := fun k => if k = session_id then none else st.evaluations k }

/-! ## Specification-side definitions

Clean restatements of the aggregation, used to characterise the folds of
`_generate_final_score`, plus well-formedness of evaluation records. -/

/-- The numeric content of an optional JSON value: `some q` exactly when
the value is present and a number. -/
def getNumZ : Option JsonVal → Option ℤ
  | some (JsonVal.num q) => some q
  | _ => none

/-- A present value under a key is acceptable to the numeric aggregation
when it is absent or a number (a present string raises in Python). -/
def numericVal : Option JsonVal → Bool
  | some (JsonVal.str _) => false
  | _ => true

/-- A record is well formed when every criterion key that is present maps
to a number (the shape the specification's data model prescribes). -/
def wellFormed (ev : EvalRecord) : Bool :=
  criteres.all (fun c => numericVal (ev.lookup c))

/-- Sum of the values present under criteria keys in one record. -/
def recordSum (ev : EvalRecord) : ℤ :=
  (criteres.filterMap (fun c => getNumZ (ev.lookup c))).sum

/-- Number of contributing (record, criterion) pairs in one record. -/
def recordCount (ev : EvalRecord) : ℕ :=
  (criteres.filterMap (fun c => getNumZ (ev.lookup c))).length

/-- Spec-side total: sum over all records of all present criteria values. -/
def sumSpec (evaluations : List EvalRecord) : ℤ :=
  (evaluations.map recordSum).sum

/-- Spec-side count of contributing (record, criterion) pairs. -/
def countSpec (evaluations : List EvalRecord) : ℕ :=
  (evaluations.map recordCount).sum

/-- Spec-side rendering of a turn list: the rendered lines concatenated
in order. -/
def renderedAll (l : List Turn) : String :=
  l.foldr (fun t acc => renderTurn t ++ acc) ""

/-! ## Concrete instances used in closed statements -/

/-- An evaluation record with all five criteria equal to 10. -/
def rec10 : EvalRecord :=
  [("logique", JsonVal.num 10), ("preuves", JsonVal.num 10),
   ("force_argumentative", JsonVal.num 10), ("structure", JsonVal.num 10),
   ("clarte_style", JsonVal.num 10)]

/-- An environment whose external model always answers a fixed
non-JSON text. -/
def envRaw : GenEnv :=
  { freshId := "fresh-id", gen := fun _ => .ok "pas un json", parse := fun _ => none }

/-- An environment whose external model always raises. -/
def envFail : GenEnv :=
  { freshId := "fresh-id", gen := fun _ => .error "boom", parse := fun _ => none }

/-- An environment whose external model echoes the prompt it received. -/
def envEcho : GenEnv :=
  { freshId := "fresh-id", gen := fun p => .ok p, parse := fun _ => none }

/-- An environment whose external model always answers a fixed text. -/
def envOk : GenEnv :=
  { freshId := "fresh-id", gen := fun _ => .ok "Bonne remarque.", parse := fun _ => none }

/-- A state holding one session `"s"` with an empty history and one
all-ten evaluation record. -/
def stOne : ServiceState :=
  { sessions := fun k => if k = "s" then some [] else none,
    evaluations := fun k => if k = "s" then some [rec10] else none }

/-! ## Aggregation lemmas -/

theorem foldl_addCriterion_error (l : List String) (ev : EvalRecord) (e : String) :
    l.foldl (fun a critere => addCriterion a ev critere) (.error e) = .error e := by
  induction l with
  | nil => rfl
  | cons c l ih => simpa [addCriterion] using ih

theorem foldl_addCriterion_wf (ev : EvalRecord) (l : List String)
    (h : ∀ c ∈ l, numericVal (ev.lookup c) = true) (t : ℤ) (n : ℕ) :
    l.foldl (fun a critere => addCriterion a ev critere) (.ok (t, n)) =
      .ok (t + (l.filterMap (fun c => getNumZ (ev.lookup c))).sum,
           n + (l.filterMap (fun c => getNumZ (ev.lookup c))).length) := by
  induction l generalizing t n with
  | nil => simp
  | cons c l ih =>
    have hc := h c (List.mem_cons_self c l)
    have hl : ∀ c ∈ l, numericVal (ev.lookup c) = true :=
      fun c' hc' => h c' (List.mem_cons_of_mem c hc')
    rw [List.foldl_cons]
    cases hv : ev.lookup c with
    | none =>
      have hstep : addCriterion (.ok (t, n)) ev c = .ok (t, n) := by
        simp [addCriterion, hv]
      rw [hstep, ih hl]
      simp [getNumZ, hv]
    | some v =>
      cases v with
      | num q =>
        have hstep : addCriterion (.ok (t, n)) ev c = .ok (t + q, n + 1) := by
          simp [addCriterion, hv]
        rw [hstep, ih hl]
        simp [getNumZ, hv, add_assoc, Nat.add_comm]
      | str s => simp [numericVal, hv] at hc

/-- On a list of well-formed records, the double fold of
`_generate_final_score` succeeds and computes the spec-side total and
count. -/
theorem aggregate_wf (evaluations : List EvalRecord)
    (h : ∀ ev ∈ evaluations, wellFormed ev = true) :
    aggregate evaluations = .ok (sumSpec evaluations, countSpec evaluations) := by
  suffices H : ∀ t n, evaluations.foldl
      (fun acc ev => criteres.foldl (fun a critere => addCriterion a ev critere) acc)
      (.ok (t, n)) = .ok (t + sumSpec evaluations, n + countSpec evaluations) by
    simpa [aggregate] using H 0 0
  induction evaluations with
  | nil => intro t n; simp [sumSpec, countSpec]
  | cons ev evs ih =>
    intro t n
    have hev : ∀ c ∈ criteres, numericVal (ev.lookup c) = true := by
      have := h ev (List.mem_cons_self ev evs)
      simpa [wellFormed, List.all_eq_true] using this
    have hevs : ∀ e ∈ evs, wellFormed e = true :=
      fun e he => h e (List.mem_cons_of_mem ev he)
    simp only [List.foldl_cons, foldl_addCriterion_wf ev criteres hev t n]
    rw [ih hevs]
    simp [sumSpec, countSpec, recordSum, recordCount, add_assoc]

theorem foldl_addCriterion_id (ev : EvalRecord) (l : List String)
    (h : ∀ c ∈ l, ev.lookup c = none) (acc : Except String (ℤ × ℕ)) :
    l.foldl (fun a critere => addCriterion a ev critere) acc = acc := by
  induction l generalizing acc with
  | nil => rfl
  | cons c l ih =>
    have hc := h c (List.mem_cons_self c l)
    have hl : ∀ c' ∈ l, ev.lookup c' = none :=
      fun c' hc' => h c' (List.mem_cons_of_mem c hc')
    rw [List.foldl_cons]
    have hstep : addCriterion acc ev c = acc := by
      cases acc with
      | error e => rfl
      | ok p => cases p with | mk t n => simp [addCriterion, hc]
    rw [hstep]
    exact ih hl acc

theorem lookup_criteres_raw (text : String) :
    ∀ c ∈ criteres, (([("raw", JsonVal.str text)] : EvalRecord).lookup c) = none := by
  intro c hc
  simp only [criteres, List.mem_cons, List.not_mem_nil, or_false] at hc
  rcases hc with rfl | rfl | rfl | rfl | rfl <;> rfl

/-- Appending a `{"raw": text}` fallback record changes neither the total
nor the count of the aggregation. -/
theorem aggregate_append_raw (evaluations : List EvalRecord) (text : String) :
    aggregate (evaluations ++ [[("raw", JsonVal.str text)]]) = aggregate evaluations := by
  unfold aggregate
  rw [List.foldl_append]
  simpa using foldl_addCriterion_id _ criteres (lookup_criteres_raw text) _

/-- A list of records none of which has a criteria key aggregates to a
zero total and a zero count. -/
theorem aggregate_of_no_criteria (evaluations : List EvalRecord)
    (h : ∀ ev ∈ evaluations, ∀ c ∈ criteres, ev.lookup c = none) :
    aggregate evaluations = .ok (0, 0) := by
  unfold aggregate
  induction evaluations with
  | nil => rfl
  | cons ev evs ih =>
    have h1 := h ev (List.mem_cons_self ev evs)
    have h2 : ∀ e ∈ evs, ∀ c ∈ criteres, e.lookup c = none :=
      fun e he => h e (List.mem_cons_of_mem ev he)
    rw [List.foldl_cons, foldl_addCriterion_id ev criteres h1]
    exact ih h2

/-! ## Claims -/

/-- C2: `ComputeFinalScore` is a deterministic function of the session's
evaluation records: it sums every value present under the criteria keys
across all records, counts the contributing (record, criterion) pairs,
and returns the score `round((sum / (count * 20)) * 100, 2)`; two records
each with all five criteria equal to 10 yield exactly 50.0 (the witness
instantiates this). -/
theorem C2_final_score_formula (evaluations : List EvalRecord)
    (hwf : ∀ ev ∈ evaluations, wellFormed ev = true)
    (hne : evaluations ≠ [])
    (hc : countSpec evaluations ≠ 0) :
    aggregate evaluations = .ok (sumSpec evaluations, countSpec evaluations) ∧
    generate_final_score_evs evaluations =
      .ok (reportTemplate (round2
        (((sumSpec evaluations : ℚ) / ((countSpec evaluations : ℚ) * 20)) * 100))) := by
  have ha := aggregate_wf evaluations hwf
  refine ⟨ha, ?_⟩
  unfold generate_final_score_evs
  rw [ha]
  simp [List.isEmpty_iff, hne, hc]

theorem C2_final_score_formula_witness :
    generate_final_score_evs [rec10, rec10] = .ok (reportTemplate 50) := by
  have h := (C2_final_score_formula [rec10, rec10] (by decide) (by simp) (by decide)).2
  have h1 : sumSpec [rec10, rec10] = 100 := by decide
  have h2 : countSpec [rec10, rec10] = 10 := by decide
  rw [h, h1, h2]
  norm_num [round2, roundHalfEven]

/-- C6: when the external model's evaluation output fails to parse as a
JSON object, `_evaluate_argument` returns the fallback `{"raw": text}`;
such a record contributes no value and no count to the aggregation of
`_generate_final_score`, and does not make it crash (alone it yields the
no-score message, and appended to any non-empty record list it leaves the
result unchanged). -/
theorem C6_parse_fallback (env : GenEnv) (message text : String)
    (hg : env.gen (evalPrompt message) = .ok text)
    (hp : env.parse text = none) :
    evaluate_argument env message = .ok [("raw", JsonVal.str text)] ∧
    (∀ evaluations : List EvalRecord,
      aggregate (evaluations ++ [[("raw", JsonVal.str text)]]) = aggregate evaluations) ∧
    (∀ evaluations : List EvalRecord, evaluations ≠ [] →
      generate_final_score_evs (evaluations ++ [[("raw", JsonVal.str text)]]) =
        generate_final_score_evs evaluations) ∧
    generate_final_score_evs [[("raw", JsonVal.str text)]] = .ok noScoreMsg := by
  refine ⟨?_, fun evs => aggregate_append_raw evs text, ?_, ?_⟩
  · simp [evaluate_argument, hg, hp]
  · intro evs hne
    unfold generate_final_score_evs
    rw [aggregate_append_raw]
    simp [List.isEmpty_iff, hne]
  · have h0 : aggregate [[("raw", JsonVal.str text)]] = .ok (0, 0) := by
      simpa [aggregate] using aggregate_append_raw [] text
    simp [generate_final_score_evs, h0]

theorem C6_parse_fallback_witness :
    evaluate_argument envRaw "msg" = .ok [("raw", JsonVal.str "pas un json")] ∧
    generate_final_score_evs [[("raw", JsonVal.str "pas un json")]] = .ok noScoreMsg :=
  ⟨(C6_parse_fallback envRaw "msg" "pas un json" rfl rfl).1,
   (C6_parse_fallback envRaw "msg" "pas un json" rfl rfl).2.2.2⟩

set_option maxRecDepth 8000 in
/-- C7: whenever no (record, criterion) pair contributes — the session
has zero evaluation records, or every record lacks all criteria keys (a
fallback) — `_generate_final_score` returns a fixed non-score message
(`"Aucun argument à évaluer."` resp. `"Impossible de calculer le
score."`) and not the score report. -/
theorem C7_no_contribution_message (evaluations : List EvalRecord)
    (h : ∀ ev ∈ evaluations, ∀ c ∈ criteres, ev.lookup c = none) :
    (evaluations = [] → generate_final_score_evs evaluations = .ok noArgumentMsg) ∧
    (evaluations ≠ [] → generate_final_score_evs evaluations = .ok noScoreMsg) ∧
    ∀ q : ℚ, reportTemplate q ≠ noArgumentMsg ∧ reportTemplate q ≠ noScoreMsg := by
  refine ⟨?_, ?_, ?_⟩
  · intro he
    subst he
    rfl
  · intro hne
    have ha := aggregate_of_no_criteria evaluations h
    unfold generate_final_score_evs
    rw [ha]
    simp [List.isEmpty_iff, hne]
  · intro q
    have hp28 : reportPrefix.length = 28 := by decide
    have hs32 : 32 < reportSuffix.length := by decide
    have hm1 : noArgumentMsg.length = 25 := by decide
    have hm2 : noScoreMsg.length = 32 := by decide
    constructor
    · intro hEq
      have hl := congrArg String.length hEq
      simp only [reportTemplate, String.length_append] at hl
      omega
    · intro hEq
      have hl := congrArg String.length hEq
      simp only [reportTemplate, String.length_append] at hl
      omega

theorem C7_no_contribution_message_witness :
    generate_final_score_evs [[("raw", JsonVal.str "x")]] = .ok noScoreMsg ∧
    generate_final_score_evs ([] : List EvalRecord) = .ok noArgumentMsg :=
  ⟨(C7_no_contribution_message [[("raw", JsonVal.str "x")]]
      (by intro ev hev
          simp only [List.mem_singleton] at hev
          subst hev
          exact lookup_criteres_raw "x")).2.1 (by simp),
   (C7_no_contribution_message [] (by simp)).1 rfl⟩

/-! ## Context rendering -/

theorem foldl_render_eq (l : List Turn) (s : String) :
    l.foldl (fun context msg => context ++ renderTurn msg) s = s ++ renderedAll l := by
  induction l generalizing s with
  | nil => simp [renderedAll, String.append_empty]
  | cons t l ih =>
    rw [List.foldl_cons, ih]
    simp [renderedAll, String.append_assoc]

/-- C8: the rendered recent context is the rendering of a suffix of the
session's turn list of length `min 10 (history length)` — at most the
last 10 turns, fewer if the history is shorter — each turn rendered as a
`"User: ..."` or `"Assistant: ..."` line, concatenated in original
order. -/
theorem C8_recent_context (st : ServiceState) (session_id : String) :
    ∃ l : List Turn,
      l <:+ ((st.sessions session_id).getD []) ∧
      l.length = min 10 ((st.sessions session_id).getD []).length ∧
      build_context st session_id = renderedAll l := by
  refine ⟨takeLast 10 ((st.sessions session_id).getD []), ?_, ?_, ?_⟩
  · exact List.drop_suffix _ _
  · rw [takeLast, List.length_drop]
    omega
  · rw [build_context, foldl_render_eq, String.empty_append]

/-! ## State helper lemmas -/

@[simp]
theorem appendTurn_evaluations (st : ServiceState) (sid : String) (t : Turn) :
    (appendTurn st sid t).evaluations = st.evaluations := rfl

@[simp]
theorem appendEval_sessions (st : ServiceState) (sid : String) (r : EvalRecord) :
    (appendEval st sid r).sessions = st.sessions := rfl

@[simp]
theorem appendTurn_sessions_self (st : ServiceState) (sid : String) (t : Turn) :
    (appendTurn st sid t).sessions sid = some ((st.sessions sid).getD [] ++ [t]) := by
  simp [appendTurn]

@[simp]
theorem appendEval_evaluations_self (st : ServiceState) (sid : String) (r : EvalRecord) :
    (appendEval st sid r).evaluations sid = some ((st.evaluations sid).getD [] ++ [r]) := by
  simp [appendEval]

@[simp]
theorem ensureSession_sessions_self (st : ServiceState) (sid : String) :
    (ensureSession st sid).sessions sid = some ((st.sessions sid).getD []) := by
  unfold ensureSession
  cases h : st.sessions sid <;> simp [h]

theorem ensureSession_of_some (st : ServiceState) (sid : String) (l : List Turn)
    (h : st.sessions sid = some l) : ensureSession st sid = st := by
  unfold ensureSession
  rw [h]

theorem ensureSession_evaluations_of_none (st : ServiceState) (sid : String)
    (h : st.sessions sid = none) :
    (ensureSession st sid).evaluations sid = some [] := by
  unfold ensureSession
  rw [h]
  simp

@[simp]
theorem clear_session_sessions_self (st : ServiceState) (sid : String) :
    (clear_session st sid).sessions sid = none := by
  simp [clear_session]

@[simp]
theorem clear_session_evaluations_self (st : ServiceState) (sid : String) :
    (clear_session st sid).evaluations sid = none := by
  simp [clear_session]

@[simp]
theorem resolveSid_some (env : GenEnv) (sid : String) (h : sid ≠ "") :
    resolveSid env (some sid) = sid := by
  simp [resolveSid, h]

theorem build_context_congr (st1 st2 : ServiceState) (sid : String)
    (h : st1.sessions sid = st2.sessions sid) :
    build_context st1 sid = build_context st2 sid := by
  unfold build_context
  rw [h]

theorem generate_final_score_congr (st1 st2 : ServiceState) (sid : String)
    (h : st1.evaluations sid = st2.evaluations sid) :
    generate_final_score st1 sid = generate_final_score st2 sid := by
  unfold generate_final_score
  rw [h]

@[simp]
theorem build_context_appendEval (st : ServiceState) (sid : String) (r : EvalRecord)
    (sid' : String) :
    build_context (appendEval st sid r) sid' = build_context st sid' := rfl

/-- On well-formed records `_generate_final_score` never raises. -/
theorem gfs_ok_of_wf (E : List EvalRecord) (hwf : ∀ ev ∈ E, wellFormed ev = true) :
    ∃ r, generate_final_score_evs E = .ok r := by
  by_cases hne : E = []
  · subst hne
    exact ⟨noArgumentMsg, rfl⟩
  · have ha := aggregate_wf E hwf
    by_cases hc : countSpec E = 0
    · refine ⟨noScoreMsg, ?_⟩
      unfold generate_final_score_evs
      rw [ha]
      simp [List.isEmpty_iff, hne, hc]
    · refine ⟨reportTemplate (round2
        (((sumSpec E : ℚ)) / ((countSpec E : ℚ) * 20) * 100)), ?_⟩
      unfold generate_final_score_evs
      rw [ha]
      simp [List.isEmpty_iff, hne, hc]

/-- C1: in score mode, a message whose lowercased form is a terminal
phrase makes `generate_response` compute the final report from the
session's evaluation records, append exactly one assistant turn (the
report) after the user turn, return `{text: report, session_id}`, leave
the evaluation list untouched, and never consult the external model: the
entire outcome is the same for every generation function `gen'`. -/
theorem C1_terminal_report (env : GenEnv) (message : String) (sid : String)
    (st : ServiceState) (E : List EvalRecord)
    (hsid : sid ≠ "")
    (hter : terminalPhrases.contains (pyLower message) = true)
    (hE : (ensureSession st sid).evaluations sid = some E)
    (hwf : ∀ ev ∈ E, wellFormed ev = true) :
    ∃ report, generate_final_score_evs E = .ok report ∧
      ∀ gen' : String → Except String String,
        generate_response { env with gen := gen' } message "score" (some sid) st =
          (.ok { text := report, session_id := sid },
            appendTurn
              (appendTurn (ensureSession st sid) sid { role := "user", content := message })
              sid { role := "assistant", content := report }) ∧
        (generate_response { env with gen := gen' } message "score" (some sid) st).2.sessions
            sid =
          some (((ensureSession st sid).sessions sid).getD [] ++
            [{ role := "user", content := message },
             { role := "assistant", content := report }]) ∧
        (generate_response { env with gen := gen' } message "score" (some sid) st).2.evaluations
            sid = some E := by
  obtain ⟨report, hrep⟩ := gfs_ok_of_wf E hwf
  refine ⟨report, hrep, ?_⟩
  intro gen'
  have hsid' : resolveSid { env with gen := gen' } (some sid) = sid :=
    resolveSid_some _ sid hsid
  have hgfs : generate_final_score
      (appendTurn (ensureSession st sid) sid { role := "user", content := message }) sid =
        .ok report := by
    unfold generate_final_score
    rw [appendTurn_evaluations, hE]
    exact hrep
  have hmain : generate_response { env with gen := gen' } message "score" (some sid) st =
      (.ok { text := report, session_id := sid },
        appendTurn
          (appendTurn (ensureSession st sid) sid { role := "user", content := message })
          sid { role := "assistant", content := report }) := by
    have hmem : pyLower message ∈ terminalPhrases := by simpa using hter
    unfold generate_response
    simp [hsid', hmem, hgfs]
  refine ⟨hmain, ?_, ?_⟩
  · rw [hmain]
    simp
  · rw [hmain]
    simp [hE]

theorem C1_terminal_report_witness :
    generate_response envOk "FIN DU DÉBAT" "score" (some "s") stOne =
      (.ok { text := reportTemplate 50, session_id := "s" },
        appendTurn
          (appendTurn (ensureSession stOne "s") "s" { role := "user", content := "FIN DU DÉBAT" })
          "s" { role := "assistant", content := reportTemplate 50 }) ∧
    (generate_response envOk "FIN DU DÉBAT" "score" (some "s") stOne).2.evaluations "s" =
      some [rec10] := by
  obtain ⟨report, hrep, h⟩ :=
    C1_terminal_report envOk "FIN DU DÉBAT" "s" stOne [rec10] (by decide) (by decide) (by decide)
      (by decide)
  have hgfs50 : generate_final_score_evs [rec10] = .ok (reportTemplate 50) := by
    have ha : aggregate [rec10] = .ok (50, 5) := rfl
    unfold generate_final_score_evs
    rw [ha]
    norm_num [round2, roundHalfEven]
  have heq : reportTemplate 50 = report := Except.ok.inj (hgfs50.symm.trans hrep)
  obtain ⟨h1, h2, h3⟩ := h envOk.gen
  subst heq
  exact ⟨h1, h3⟩

/-- C10: `_generate_final_score` only reads state: in score mode a
terminal message leaves the evaluation list untouched, so sending a
terminal phrase twice in succession to the same session returns the same
report twice, with the evaluation records still present afterwards. -/
theorem C10_report_idempotent (env : GenEnv) (message : String) (sid : String)
    (st : ServiceState) (E : List EvalRecord)
    (hsid : sid ≠ "")
    (hter : terminalPhrases.contains (pyLower message) = true)
    (hE : (ensureSession st sid).evaluations sid = some E)
    (hwf : ∀ ev ∈ E, wellFormed ev = true) :
    ∃ report,
      (generate_response env message "score" (some sid) st).1 =
        .ok { text := report, session_id := sid } ∧
      (generate_response env message "score" (some sid) st).2.evaluations sid = some E ∧
      (generate_response env message "score" (some sid)
          (generate_response env message "score" (some sid) st).2).1 =
        .ok { text := report, session_id := sid } ∧
      (generate_response env message "score" (some sid)
          (generate_response env message "score" (some sid) st).2).2.evaluations sid =
        some E := by
  obtain ⟨report, hrep⟩ := gfs_ok_of_wf E hwf
  have hmem : pyLower message ∈ terminalPhrases := by simpa using hter
  have hsid' := resolveSid_some env sid hsid
  have hgfs1 : generate_final_score
      (appendTurn (ensureSession st sid) sid { role := "user", content := message }) sid =
        .ok report := by
    unfold generate_final_score
    rw [appendTurn_evaluations, hE]
    exact hrep
  have hmain1 : generate_response env message "score" (some sid) st =
      (.ok { text := report, session_id := sid },
        appendTurn
          (appendTurn (ensureSession st sid) sid { role := "user", content := message })
          sid { role := "assistant", content := report }) := by
    unfold generate_response
    simp [hsid', hmem, hgfs1]
  have hens2 : ensureSession
      (appendTurn
        (appendTurn (ensureSession st sid) sid { role := "user", content := message })
        sid { role := "assistant", content := report }) sid =
      appendTurn
        (appendTurn (ensureSession st sid) sid { role := "user", content := message })
        sid { role := "assistant", content := report } :=
    ensureSession_of_some _ _ _ (appendTurn_sessions_self _ _ _)
  have hE2 : (ensureSession
      (appendTurn
        (appendTurn (ensureSession st sid) sid { role := "user", content := message })
        sid { role := "assistant", content := report }) sid).evaluations sid = some E := by
    rw [hens2]
    simpa using hE
  have hgfs2 : generate_final_score
      (appendTurn (ensureSession
        (appendTurn
          (appendTurn (ensureSession st sid) sid { role := "user", content := message })
          sid { role := "assistant", content := report }) sid)
        sid { role := "user", content := message }) sid = .ok report := by
    unfold generate_final_score
    rw [appendTurn_evaluations, hE2]
    exact hrep
  have hmain2 : generate_response env message "score" (some sid)
      (appendTurn
        (appendTurn (ensureSession st sid) sid { role := "user", content := message })
        sid { role := "assistant", content := report }) =
      (.ok { text := report, session_id := sid },
        appendTurn
          (appendTurn (ensureSession
            (appendTurn
              (appendTurn (ensureSession st sid) sid { role := "user", content := message })
              sid { role := "assistant", content := report }) sid)
            sid { role := "user", content := message })
          sid { role := "assistant", content := report }) := by
    unfold generate_response
    simp [hsid', hmem, hgfs2]
  refine ⟨report, ?_, ?_, ?_, ?_⟩
  · rw [hmain1]
  · rw [hmain1]
    simpa using hE
  · rw [hmain1, hmain2]
  · rw [hmain1, hmain2]
    simpa using hE2

theorem C10_report_idempotent_witness :
    (generate_response envOk "fin" "score" (some "s") emptyState).1 =
      .ok { text := noArgumentMsg, session_id := "s" } ∧
    (generate_response envOk "fin" "score" (some "s")
        (generate_response envOk "fin" "score" (some "s") emptyState).2).1 =
      .ok { text := noArgumentMsg, session_id := "s" } ∧
    (generate_response envOk "fin" "score" (some "s")
        (generate_response envOk "fin" "score" (some "s") emptyState).2).2.evaluations "s" =
      some [] := by
  obtain ⟨report, h1, h2, h3, h4⟩ :=
    C10_report_idempotent envOk "fin" "s" emptyState [] (by decide) (by decide) (by decide)
      (by simp)
  have hwit : (generate_response envOk "fin" "score" (some "s") emptyState).1 =
      .ok { text := noArgumentMsg, session_id := "s" } := rfl
  have hrep : report = noArgumentMsg := by
    have hh := Except.ok.inj (h1.symm.trans hwit)
    exact congrArg GenResult.text hh
  subst hrep
  exact ⟨h1, h3, h4⟩

/-- C3 (amended): only a failure of the response-generation call is
wrapped as a single `"Erreur génération IA : ..."` error; a failure of
the evaluation call (score mode, non-terminal message) propagates
unwrapped.  In both cases the appended user turn remains recorded in the
session history (no rollback). -/
theorem C3_external_failure (env : GenEnv) (message : String) (sid : String)
    (st : ServiceState) (e : String)
    (hsid : sid ≠ "")
    (hgen : ∀ p, env.gen p = .error e) :
    ((generate_response env message "train" (some sid) st).1 =
        .error ("Erreur génération IA : " ++ e) ∧
      (generate_response env message "train" (some sid) st).2.sessions sid =
        some (((ensureSession st sid).sessions sid).getD [] ++
          [{ role := "user", content := message }])) ∧
    (terminalPhrases.contains (pyLower message) = false →
      (generate_response env message "score" (some sid) st).1 = .error e ∧
      (generate_response env message "score" (some sid) st).2.sessions sid =
        some (((ensureSession st sid).sessions sid).getD [] ++
          [{ role := "user", content := message }])) := by
  have hsid' := resolveSid_some env sid hsid
  constructor
  · have hmain : generate_response env message "train" (some sid) st =
        (.error ("Erreur génération IA : " ++ e),
          appendTurn (ensureSession st sid) sid { role := "user", content := message }) := by
      unfold generate_response
      simp [hsid', hgen]
    rw [hmain]
    simp
  · intro hter
    have hnm : pyLower message ∉ terminalPhrases := by simpa using hter
    have hmain : generate_response env message "score" (some sid) st =
        (.error e,
          appendTurn (ensureSession st sid) sid { role := "user", content := message }) := by
      unfold generate_response
      simp [hsid', hnm, evaluate_argument, hgen]
    rw [hmain]
    simp

theorem C3_external_failure_witness :
    (generate_response envFail "bonjour" "train" (some "s") emptyState).1 =
      .error ("Erreur génération IA : " ++ "boom") ∧
    (generate_response envFail "bonjour" "score" (some "s") emptyState).1 = .error "boom" :=
  ⟨((C3_external_failure envFail "bonjour" "s" emptyState "boom" (by decide)
      (fun _ => rfl)).1).1,
   ((C3_external_failure envFail "bonjour" "s" emptyState "boom" (by decide)
      (fun _ => rfl)).2 (by decide)).1⟩

theorem C3_external_failure_counterexample :
    (generate_response envFail "bonjour" "score" (some "s") emptyState).1 = .error "boom" ∧
    ("boom" : String) ≠ "Erreur génération IA : boom" :=
  ⟨rfl, by decide⟩

/-- C4 (amended): a mode outside `{"train", "score"}` follows the same
control path as `"train"`: the full generation path runs, no evaluation
record is appended and no report is produced; and whenever the external
model answers the two assembled prompts identically, the returned value
and the resulting state are exactly those of the same call with mode
`"train"`.  The prompts themselves differ: the literal mode string is
embedded in the `MODE ACTUEL` line, so the external model may answer
differently (the counterexample exhibits this). -/
theorem C4_unknown_mode_like_train (env : GenEnv) (message : String) (sid : String)
    (st : ServiceState) (mode : String)
    (hsid : sid ≠ "") (hm : mode ≠ "score") :
    ((generate_response env message mode (some sid) st).2.evaluations =
      (ensureSession st sid).evaluations) ∧
    (∀ mode' : String, mode' ≠ "score" →
      env.gen (fullPrompt mode (build_context (appendTurn (ensureSession st sid) sid
        { role := "user", content := message }) sid) message) =
        env.gen (fullPrompt mode' (build_context (appendTurn (ensureSession st sid) sid
          { role := "user", content := message }) sid) message) →
      generate_response env message mode (some sid) st =
        generate_response env message mode' (some sid) st) := by
  have hsid' := resolveSid_some env sid hsid
  constructor
  · unfold generate_response
    simp [hsid', hm]
    split <;> simp
  · intro mode' hm' hgEq
    unfold generate_response
    simp [hsid', hm, hm']
    rw [hgEq]

theorem C4_unknown_mode_like_train_witness :
    generate_response envOk "m" "banana" (some "s") emptyState =
      generate_response envOk "m" "train" (some "s") emptyState :=
  (C4_unknown_mode_like_train envOk "m" "s" emptyState "banana" (by decide)
    (by decide)).2 "train" (by decide) rfl

theorem C4_unknown_mode_counterexample :
    (generate_response envEcho "m" "banana" (some "s") emptyState).1 ≠
      (generate_response envEcho "m" "train" (some "s") emptyState).1 := by
  intro h
  have h1 : (generate_response envEcho "m" "banana" (some "s") emptyState).1 =
      Except.ok (GenResult.mk (fullPrompt "banana"
        (build_context (appendTurn (ensureSession emptyState "s") "s"
          (Turn.mk "user" "m")) "s") "m") "s") := rfl
  have h2 : (generate_response envEcho "m" "train" (some "s") emptyState).1 =
      Except.ok (GenResult.mk (fullPrompt "train"
        (build_context (appendTurn (ensureSession emptyState "s") "s"
          (Turn.mk "user" "m")) "s") "m") "s") := rfl
  rw [h1, h2] at h
  have h3 := congrArg GenResult.text (Except.ok.inj h)
  have h4 := congrArg String.length h3
  simp only [fullPrompt, String.length_append] at h4
  have hb : ("banana" : String).length = 6 := by decide
  have ht : ("train" : String).length = 5 := by decide
  omega

/-- C5: in score mode a non-terminal message triggers BOTH side effects
in one call: exactly one evaluation record is appended to the session's
evaluation list AND the external model is still asked for a response,
whose text is appended as an assistant turn and returned. -/
theorem C5_score_nonterminal_both_effects (env : GenEnv) (message : String) (sid : String)
    (st : ServiceState) (E : List EvalRecord) (T : List Turn)
    (record : EvalRecord) (response : String)
    (hsid : sid ≠ "")
    (hter : terminalPhrases.contains (pyLower message) = false)
    (hT : (ensureSession st sid).sessions sid = some T)
    (hE : (ensureSession st sid).evaluations sid = some E)
    (heval : evaluate_argument env message = .ok record)
    (hresp : env.gen (fullPrompt "score"
        (build_context (appendTurn (ensureSession st sid) sid
          { role := "user", content := message }) sid) message) = .ok response) :
    (generate_response env message "score" (some sid) st).1 =
      .ok { text := response, session_id := sid } ∧
    (generate_response env message "score" (some sid) st).2.evaluations sid =
      some (E ++ [record]) ∧
    (generate_response env message "score" (some sid) st).2.sessions sid =
      some (T ++ [{ role := "user", content := message },
                  { role := "assistant", content := response }]) := by
  have hsid' := resolveSid_some env sid hsid
  have hnm : pyLower message ∉ terminalPhrases := by simpa using hter
  have hmain : generate_response env message "score" (some sid) st =
      (.ok { text := response, session_id := sid },
        appendTurn
          (appendEval (appendTurn (ensureSession st sid) sid
            { role := "user", content := message }) sid record)
          sid { role := "assistant", content := response }) := by
    unfold generate_response
    simp [hsid', hnm, heval, hresp]
  rw [hmain]
  refine ⟨rfl, ?_, ?_⟩
  · simp [hE]
  · have hT' : (st.sessions sid).getD [] = T :=
      Option.some.inj ((ensureSession_sessions_self st sid).symm.trans hT)
    simp [hT']

theorem C5_score_nonterminal_both_effects_witness :
    (generate_response envOk "Les preuves abondent" "score" (some "s") emptyState).1 =
      .ok { text := "Bonne remarque.", session_id := "s" } ∧
    (generate_response envOk "Les preuves abondent" "score"
        (some "s") emptyState).2.evaluations "s" =
      some [[("raw", JsonVal.str "Bonne remarque.")]] ∧
    (generate_response envOk "Les preuves abondent" "score"
        (some "s") emptyState).2.sessions "s" =
      some [{ role := "user", content := "Les preuves abondent" },
            { role := "assistant", content := "Bonne remarque." }] :=
  C5_score_nonterminal_both_effects envOk "Les preuves abondent" "s" emptyState [] []
    [("raw", JsonVal.str "Bonne remarque.")] "Bonne remarque."
    (by decide) (by decide) (by decide) (by decide) rfl rfl

/-- The outcome of `generate_response` on an explicit session identifier
depends only on that session's turn list and evaluation list: two states
agreeing at `sid` give the same result and the same post entries at
`sid`. -/
theorem generate_response_view_congr (env : GenEnv) (message mode : String) (sid : String)
    (stA stB : ServiceState)
    (hsid : sid ≠ "")
    (hs : stA.sessions sid = stB.sessions sid)
    (he : stA.evaluations sid = stB.evaluations sid) :
    (generate_response env message mode (some sid) stA).1 =
      (generate_response env message mode (some sid) stB).1 ∧
    (generate_response env message mode (some sid) stA).2.sessions sid =
      (generate_response env message mode (some sid) stB).2.sessions sid ∧
    (generate_response env message mode (some sid) stA).2.evaluations sid =
      (generate_response env message mode (some sid) stB).2.evaluations sid := by
  have hsid' := resolveSid_some env sid hsid
  have hs1 : (appendTurn (ensureSession stA sid) sid
        { role := "user", content := message }).sessions sid =
      (appendTurn (ensureSession stB sid) sid
        { role := "user", content := message }).sessions sid := by
    simp [hs]
  have he1 : (appendTurn (ensureSession stA sid) sid
        { role := "user", content := message }).evaluations sid =
      (appendTurn (ensureSession stB sid) sid
        { role := "user", content := message }).evaluations sid := by
    rw [appendTurn_evaluations, appendTurn_evaluations]
    cases hv : stA.sessions sid with
    | none =>
      have hv2 : stB.sessions sid = none := by rw [← hs]; exact hv
      rw [ensureSession_evaluations_of_none _ _ hv, ensureSession_evaluations_of_none _ _ hv2]
    | some l =>
      have hv2 : stB.sessions sid = some l := by rw [← hs]; exact hv
      rw [ensureSession_of_some _ _ _ hv, ensureSession_of_some _ _ _ hv2]
      exact he
  have hctx : build_context (appendTurn (ensureSession stA sid) sid
        { role := "user", content := message }) sid =
      build_context (appendTurn (ensureSession stB sid) sid
        { role := "user", content := message }) sid :=
    build_context_congr _ _ _ hs1
  by_cases hm : mode = "score"
  · subst hm
    by_cases ht : pyLower message ∈ terminalPhrases
    · have hgfsEq : generate_final_score (appendTurn (ensureSession stA sid) sid
            { role := "user", content := message }) sid =
          generate_final_score (appendTurn (ensureSession stB sid) sid
            { role := "user", content := message }) sid :=
        generate_final_score_congr _ _ _ he1
      cases hr : generate_final_score (appendTurn (ensureSession stB sid) sid
          { role := "user", content := message }) sid with
      | error e =>
        have hA : generate_response env message "score" (some sid) stA =
            (.error e, appendTurn (ensureSession stA sid) sid
              { role := "user", content := message }) := by
          unfold generate_response
          simp [hsid', ht, hgfsEq, hr]
        have hB : generate_response env message "score" (some sid) stB =
            (.error e, appendTurn (ensureSession stB sid) sid
              { role := "user", content := message }) := by
          unfold generate_response
          simp [hsid', ht, hr]
        rw [hA, hB]
        exact ⟨rfl, hs1, he1⟩
      | ok r =>
        have hA : generate_response env message "score" (some sid) stA =
            (.ok { text := r, session_id := sid },
              appendTurn (appendTurn (ensureSession stA sid) sid
                { role := "user", content := message }) sid
                { role := "assistant", content := r }) := by
          unfold generate_response
          simp [hsid', ht, hgfsEq, hr]
        have hB : generate_response env message "score" (some sid) stB =
            (.ok { text := r, session_id := sid },
              appendTurn (appendTurn (ensureSession stB sid) sid
                { role := "user", content := message }) sid
                { role := "assistant", content := r }) := by
          unfold generate_response
          simp [hsid', ht, hr]
        rw [hA, hB]
        refine ⟨rfl, ?_, ?_⟩
        · simp [hs]
        · simpa using he1
    · cases hev : evaluate_argument env message with
      | error e =>
        have hA : generate_response env message "score" (some sid) stA =
            (.error e, appendTurn (ensureSession stA sid) sid
              { role := "user", content := message }) := by
          unfold generate_response
          simp [hsid', ht, hev]
        have hB : generate_response env message "score" (some sid) stB =
            (.error e, appendTurn (ensureSession stB sid) sid
              { role := "user", content := message }) := by
          unfold generate_response
          simp [hsid', ht, hev]
        rw [hA, hB]
        exact ⟨rfl, hs1, he1⟩
      | ok record =>
        cases hg : env.gen (fullPrompt "score"
            (build_context (appendTurn (ensureSession stB sid) sid
              { role := "user", content := message }) sid) message) with
        | error e =>
          have hA : generate_response env message "score" (some sid) stA =
              (.error ("Erreur génération IA : " ++ e),
                appendEval (appendTurn (ensureSession stA sid) sid
                  { role := "user", content := message }) sid record) := by
            unfold generate_response
            simp [hsid', ht, hev, hctx, hg]
          have hB : generate_response env message "score" (some sid) stB =
              (.error ("Erreur génération IA : " ++ e),
                appendEval (appendTurn (ensureSession stB sid) sid
                  { role := "user", content := message }) sid record) := by
            unfold generate_response
            simp [hsid', ht, hev, hg]
          rw [hA, hB]
          refine ⟨rfl, ?_, ?_⟩
          · simp [hs]
          · simp [he1]
        | ok r =>
          have hA : generate_response env message "score" (some sid) stA =
              (.ok { text := r, session_id := sid },
                appendTurn (appendEval (appendTurn (ensureSession stA sid) sid
                  { role := "user", content := message }) sid record) sid
                  { role := "assistant", content := r }) := by
            unfold generate_response
            simp [hsid', ht, hev, hctx, hg]
          have hB : generate_response env message "score" (some sid) stB =
              (.ok { text := r, session_id := sid },
                appendTurn (appendEval (appendTurn (ensureSession stB sid) sid
                  { role := "user", content := message }) sid record) sid
                  { role := "assistant", content := r }) := by
            unfold generate_response
            simp [hsid', ht, hev, hg]
          rw [hA, hB]
          refine ⟨rfl, ?_, ?_⟩
          · simp [hs]
          · simp [he1]
  · cases hg : env.gen (fullPrompt mode
        (build_context (appendTurn (ensureSession stB sid) sid
          { role := "user", content := message }) sid) message) with
    | error e =>
      have hA : generate_response env message mode (some sid) stA =
          (.error ("Erreur génération IA : " ++ e),
            appendTurn (ensureSession stA sid) sid
              { role := "user", content := message }) := by
        unfold generate_response
        simp [hsid', hm, hctx, hg]
      have hB : generate_response env message mode (some sid) stB =
          (.error ("Erreur génération IA : " ++ e),
            appendTurn (ensureSession stB sid) sid
              { role := "user", content := message }) := by
        unfold generate_response
        simp [hsid', hm, hg]
      rw [hA, hB]
      exact ⟨rfl, hs1, he1⟩
    | ok r =>
      have hA : generate_response env message mode (some sid) stA =
          (.ok { text := r, session_id := sid },
            appendTurn (appendTurn (ensureSession stA sid) sid
              { role := "user", content := message }) sid
              { role := "assistant", content := r }) := by
        unfold generate_response
        simp [hsid', hm, hctx, hg]
      have hB : generate_response env message mode (some sid) stB =
          (.ok { text := r, session_id := sid },
            appendTurn (appendTurn (ensureSession stB sid) sid
              { role := "user", content := message }) sid
              { role := "assistant", content := r }) := by
        unfold generate_response
        simp [hsid', hm, hg]
      rw [hA, hB]
      refine ⟨rfl, ?_, ?_⟩
      · simp [hs]
      · simpa using he1

/-- C9: `clear_session` removes both the turn list and the evaluation
list for the identifier (and is a no-op without error when the identifier
is absent, `pop` with default); any subsequent `generate_response` on
that identifier then behaves exactly as on a service that never saw the
identifier: same returned outcome and same resulting session entries as
from the freshly constructed empty state. -/
theorem C9_clear_session (st : ServiceState) (sid : String) (hsid : sid ≠ "") :
    (clear_session st sid).sessions sid = none ∧
    (clear_session st sid).evaluations sid = none ∧
    ∀ env message mode,
      (generate_response env message mode (some sid) (clear_session st sid)).1 =
        (generate_response env message mode (some sid) emptyState).1 ∧
      (generate_response env message mode (some sid)
          (clear_session st sid)).2.sessions sid =
        (generate_response env message mode (some sid) emptyState).2.sessions sid ∧
      (generate_response env message mode (some sid)
          (clear_session st sid)).2.evaluations sid =
        (generate_response env message mode (some sid) emptyState).2.evaluations sid := by
  refine ⟨by simp, by simp, ?_⟩
  intro env message mode
  exact generate_response_view_congr env message mode sid _ _ hsid
    (by simp [emptyState]) (by simp [emptyState])

theorem C9_clear_session_witness :
    (clear_session stOne "s").sessions "s" = none ∧
    (clear_session stOne "s").evaluations "s" = none ∧
    ((generate_response envOk "salut" "train" (some "s") (clear_session stOne "s")).1 =
      (generate_response envOk "salut" "train" (some "s") emptyState).1) ∧
    ((generate_response envOk "salut" "train" (some "s")
        (clear_session stOne "s")).2.sessions "s" =
      (generate_response envOk "salut" "train" (some "s") emptyState).2.sessions "s") ∧
    ((generate_response envOk "salut" "train" (some "s")
        (clear_session stOne "s")).2.evaluations "s" =
      (generate_response envOk "salut" "train" (some "s") emptyState).2.evaluations "s") := by
  obtain ⟨h1, h2, h⟩ := C9_clear_session stOne "s" (by decide)
  obtain ⟨h3, h4, h5⟩ := h envOk "salut" "train"
  exact ⟨h1, h2, h3, h4, h5⟩
